import Mathlib

/-!
# Alphonse: a verification development of `src/main.cpp`

The program is a single-file SDL/OpenGL render loop.  Its process-wide state
(the globals of `main.cpp`) is embedded as the record `World`; every function
of the source becomes a function on `World`.  The calls the program makes into
the GL / SDL libraries are recorded, in order and with their arguments, in
`World.trace`; what the libraries answer (handles, compile and link status,
attribute locations, object sizes) is taken from the record `Driver`.
-/

namespace Alphonse

/-! ## Library vocabulary -/

/-- The `GLenum` / bitfield constants that occur in `main.cpp`. -/
inductive GLenum where
  | GL_VERTEX_SHADER
  | GL_FRAGMENT_SHADER
  | GL_COMPILE_STATUS
  | GL_LINK_STATUS
  | GL_INFO_LOG_LENGTH
  | GL_ARRAY_BUFFER
  | GL_ELEMENT_ARRAY_BUFFER
  | GL_STATIC_DRAW
  | GL_FLOAT
  | GL_UNSIGNED_INT
  | GL_TRIANGLES
  | GL_COLOR_BUFFER_BIT
  deriving DecidableEq

/-- The names under which `startGraphics` looks attributes up. -/
inductive AttribName where
  | position
  | color
  deriving DecidableEq

/-- One call into the GL / SDL libraries, with the arguments the source passes
(pointer arguments to CPU-side data are left out) and, for the calls that
create an object, the handle the library returned (`ret`).  `glDeleteBuffers`
and `glDeleteShader` belong to the library but are called nowhere in
`main.cpp`; they are listed so that their absence from a trace can be stated. -/
inductive GLCall where
  | SDL_Init
  | SDL_CreateWindow (w h : Nat)
  | SDL_GL_CreateContext
  | glewInit
  | SDL_StartTextInput
  | SDL_StopTextInput
  | SDL_DestroyWindow
  | SDL_Quit
  | SDL_GL_SwapWindow
  | glCreateProgram (ret : Nat)
  | glCreateShader (kind : GLenum) (ret : Nat)
  | glShaderSource (shader count : Nat)
  | glCompileShader (shader : Nat)
  | glGetShaderiv (shader : Nat) (pname : GLenum)
  | glIsShader (shader : Nat)
  | glGetShaderInfoLog (shader : Nat)
  | glAttachShader (program shader : Nat)
  | glLinkProgram (program : Nat)
  | glGetProgramiv (program : Nat) (pname : GLenum)
  | glIsProgram (program : Nat)
  | glGetProgramInfoLog (program : Nat)
  | glGetAttribLocation (program : Nat) (name : AttribName)
  | glClearColor
  | glGenBuffers (n ret : Nat)
  | glBindBuffer (target : GLenum) (buffer : Nat)
  | glBufferData (target : GLenum) (size : Nat) (usage : GLenum)
  | glVertexAttribPointer (index size : Nat) (type : GLenum) (normalized : Bool)
      (stride offset : Nat)
  | glClear (mask : GLenum)
  | glUseProgram (program : Nat)
  | glEnableVertexAttribArray (index : Nat)
  | glDisableVertexAttribArray (index : Nat)
  | glDrawElements (mode : GLenum) (count : Nat) (type : GLenum) (offset : Nat)
  | glDeleteProgram (program : Nat)
  | glDeleteBuffers (n buffer : Nat)
  | glDeleteShader (shader : Nat)
  deriving DecidableEq

/-- An `SDL_Event` as far as `mainLoop` looks at it: its `type`, and for a text
input event the bytes of `event.text.text`. -/
inductive Event where
  | SDL_QUIT
  | SDL_TEXTINPUT (text : List Nat)
  | otherType (type : Nat)
  deriving DecidableEq

/-- The `std::runtime_error`s thrown in `main.cpp`, one per `throw`. -/
inductive Exn where
  | invalidProgramID
  | invalidShaderID
  | sdlInitFailed
  | windowInitFailed
  | contextInitFailed
  | glewInitFailed
  | vertexShaderFailedToCompile
  | fragmentShaderFailedToCompile
  | programFailedToLink
  | programFailedToExposeAttributes
  deriving DecidableEq

/-- The message of each exception, as written in the source. -/
def Exn.what : Exn → String
  | .invalidProgramID => "Invalid GL program ID"
  | .invalidShaderID => "Invalid GL shader ID"
  | .sdlInitFailed => "SDL initialization failed"
  | .windowInitFailed => "Window initialization failed"
  | .contextInitFailed => "Context initialization failed"
  | .glewInitFailed => "GLEW initialization failed"
  | .vertexShaderFailedToCompile => "Vertex shader failed to compile"
  | .fragmentShaderFailedToCompile => "Fragment shader failed to compile"
  | .programFailedToLink => "Shader program failed to link"
  | .programFailedToExposeAttributes => "Shader program failed to expose attributes"

/-- What the platform and the libraries answer during one run. -/
structure Driver where
  /-- Value of `sizeof(float)` (= `sizeof(GLfloat)`). -/
  sizeofFloat : Nat
  /-- Value of `sizeof(GLuint)`. -/
  sizeofGLuint : Nat
  /-- `SDL_Init(SDL_INIT_VIDEO) >= 0`. -/
  sdlInitOk : Bool
  /-- `SDL_CreateWindow` returned a non-null window. -/
  windowOk : Bool
  /-- `SDL_GL_CreateContext` returned a non-null context. -/
  contextOk : Bool
  /-- The call of `glewInit` returned `GLEW_OK`. -/
  glewOk : Bool
  /-- Handle returned by `glCreateProgram`. -/
  newProgram : Nat
  /-- Handle returned by `glCreateShader(GL_VERTEX_SHADER)`. -/
  newVertexShader : Nat
  /-- Handle returned by `glCreateShader(GL_FRAGMENT_SHADER)`. -/
  newFragmentShader : Nat
  /-- Value written by `glGetShaderiv(vertexShader, GL_COMPILE_STATUS, _)`. -/
  vsCompileStatus : Int
  /-- Value written by `glGetShaderiv(fragmentShader, GL_COMPILE_STATUS, _)`. -/
  fsCompileStatus : Int
  /-- Value written by `glGetProgramiv(program, GL_LINK_STATUS, _)`. -/
  programSuccess : Int
  /-- Value returned by `glGetAttribLocation(program, "position")`. -/
  positionLocation : Int
  /-- Value returned by `glGetAttribLocation(program, "color")`. -/
  colorLocation : Int
  /-- Answer of `glIsShader(vertexShader)`. -/
  vertexIsShader : Bool
  /-- Answer of `glIsShader(fragmentShader)`. -/
  fragmentIsShader : Bool
  /-- Answer of `glIsProgram(program)`. -/
  programIsProgram : Bool
  /-- Name written by `glGenBuffers(1, &BUFFERS["vertex"])`. -/
  newVertexBuffer : Nat
  /-- Name written by `glGenBuffers(1, &BUFFERS["index"])`. -/
  newIndexBuffer : Nat
  deriving DecidableEq

/-! ## Global state -/

/-- The mutable globals of `main.cpp`.  The three `std::map`s are only ever
indexed with the string literals below, so each entry is a field; an entry
that was never assigned reads as `0`, as `operator[]` gives. -/
structure World where
  /-- Global `IS_POLYGON_RENDERED`. -/
  IS_POLYGON_RENDERED : Bool
  /-- Entry `PROGRAMS["basic"]` (a `GLuint`). -/
  PROGRAMS_basic : Nat
  /-- Entry `ATTRIBS["position"]` (a `GLint`). -/
  ATTRIBS_position : Int
  /-- Entry `ATTRIBS["color"]` (a `GLint`). -/
  ATTRIBS_color : Int
  /-- Entry `BUFFERS["vertex"]` (a `GLuint`). -/
  BUFFERS_vertex : Nat
  /-- Entry `BUFFERS["index"]` (a `GLuint`). -/
  BUFFERS_index : Nat
  /-- The events waiting in the SDL queue. -/
  pending : List Event
  /-- The library calls issued so far, oldest first. -/
  trace : List GLCall
  deriving DecidableEq

/-- The globals as initialised at program start. -/
def World.initial : World :=
  { IS_POLYGON_RENDERED := true
    PROGRAMS_basic := 0
    ATTRIBS_position := 0
    ATTRIBS_color := 0
    BUFFERS_vertex := 0
    BUFFERS_index := 0
    pending := []
    trace := [] }

/-- Record one library call. -/
def call (c : GLCall) (w : World) : World :=
  { w with trace := w.trace ++ [c] }

/-- Record several library calls, in order. -/
def calls (cs : List GLCall) (w : World) : World :=
  { w with trace := w.trace ++ cs }

/-! ## Constants -/

def SCREEN_WIDTH : Nat := 640
def SCREEN_HEIGHT : Nat := 480
def NUM_VERTICES : Nat := 3
def GL_TRUE : Int := 1
def GL_FALSE : Int := 0

/-- Code of the character `q`. -/
def KEY_q : Nat := 113
/-- Code of the space character. -/
def KEY_space : Nat := 32

/-- Size of `struct BasicVertex`: `float position[3]` followed by
`float color[3]`, no padding between or after the two arrays. -/
def sizeofBasicVertex (sizeofFloat : Nat) : Nat :=
  3 * sizeofFloat + 3 * sizeofFloat

/-- Size of the type `float[3]`. -/
def sizeofFloat3 (sizeofFloat : Nat) : Nat := 3 * sizeofFloat

/-- Global `NUM_ATTRIBUTES = sizeof(BasicVertex) / sizeof(float)`. -/
def NUM_ATTRIBUTES (sizeofFloat : Nat) : Nat :=
  sizeofBasicVertex sizeofFloat / sizeofFloat

/-- Conversion of a `GLint` to `GLuint` (an implicit conversion where an
attribute location is passed as an index). -/
def toGLuint (i : Int) : Nat := (i % 4294967296).toNat

/-! ## The functions of `main.cpp` -/

/-- Function `printProgramLog(program)`; the text written to `std::cout` is not
modelled. -/
def printProgramLog (isProgram : Bool) (program : Nat) (w : World) : World × Option Exn :=
  let w := call (.glIsProgram program) w
  if isProgram then
    let w := call (.glGetProgramiv program .GL_INFO_LOG_LENGTH) w
    let w := call (.glGetProgramInfoLog program) w
    (w, none)
  else
    (w, some .invalidProgramID)

/-- Function `printShaderLog(shader)`; the text written to `std::cout` is not
modelled. -/
def printShaderLog (isShader : Bool) (shader : Nat) (w : World) : World × Option Exn :=
  let w := call (.glIsShader shader) w
  if isShader then
    let w := call (.glGetShaderiv shader .GL_INFO_LOG_LENGTH) w
    let w := call (.glGetShaderInfoLog shader) w
    (w, none)
  else
    (w, some .invalidShaderID)

/-- Function `startApp()`. -/
def startApp (d : Driver) (w : World) : World × Option Exn :=
  let w := call .SDL_Init w
  if !d.sdlInitOk then (w, some .sdlInitFailed) else
  let w := call (.SDL_CreateWindow SCREEN_WIDTH SCREEN_HEIGHT) w
  if !d.windowOk then (w, some .windowInitFailed) else
  let w := call .SDL_GL_CreateContext w
  if !d.contextOk then (w, some .contextInitFailed) else
  let w := call .glewInit w
  if !d.glewOk then (w, some .glewInitFailed) else
  let w := call .SDL_StartTextInput w
  (w, none)

/-- Function `startGraphics()`.  The pair returned is the state when the
function is left and, when it is left by a `throw`, the exception. -/
def startGraphics (d : Driver) (w : World) : World × Option Exn :=
  -- define graphics program
  let w := call (.glCreateProgram d.newProgram) w
  let w := { w with PROGRAMS_basic := d.newProgram }
  -- load and compile vertex shader
  let vertexShader := d.newVertexShader
  let w := call (.glCreateShader .GL_VERTEX_SHADER vertexShader) w
  let w := call (.glShaderSource vertexShader 1) w
  let w := call (.glCompileShader vertexShader) w
  let w := call (.glGetShaderiv vertexShader .GL_COMPILE_STATUS) w
  if d.vsCompileStatus ≠ GL_TRUE then
    match printShaderLog d.vertexIsShader vertexShader w with
    | (w, some e) => (w, some e)
    | (w, none) => (w, some .vertexShaderFailedToCompile)
  else
  let w := call (.glAttachShader w.PROGRAMS_basic vertexShader) w
  -- load and compile fragment shader
  let fragmentShader := d.newFragmentShader
  let w := call (.glCreateShader .GL_FRAGMENT_SHADER fragmentShader) w
  let w := call (.glShaderSource fragmentShader 1) w
  let w := call (.glCompileShader fragmentShader) w
  let w := call (.glGetShaderiv fragmentShader .GL_COMPILE_STATUS) w
  if d.fsCompileStatus ≠ GL_TRUE then
    match printShaderLog d.fragmentIsShader fragmentShader w with
    | (w, some e) => (w, some e)
    | (w, none) => (w, some .fragmentShaderFailedToCompile)
  else
  let w := call (.glAttachShader w.PROGRAMS_basic fragmentShader) w
  -- link shader program and bind program variables
  let w := call (.glLinkProgram w.PROGRAMS_basic) w
  let w := call (.glGetProgramiv w.PROGRAMS_basic .GL_LINK_STATUS) w
  if d.programSuccess ≠ GL_TRUE then
    match printProgramLog d.programIsProgram w.PROGRAMS_basic w with
    | (w, some e) => (w, some e)
    | (w, none) => (w, some .programFailedToLink)
  else
  let w := call (.glGetAttribLocation w.PROGRAMS_basic .position) w
  let w := { w with ATTRIBS_position := d.positionLocation }
  let w := call (.glGetAttribLocation w.PROGRAMS_basic .color) w
  let w := { w with ATTRIBS_color := d.colorLocation }
  if w.ATTRIBS_position < 0 ∨ w.ATTRIBS_color < 0 then
    (w, some .programFailedToExposeAttributes)
  else
  -- populate buffer objects
  let w := { w with BUFFERS_vertex := 0 }
  let w := { w with BUFFERS_index := 0 }
  let w := call .glClearColor w
  let w := call (.glGenBuffers 1 d.newVertexBuffer) w
  let w := { w with BUFFERS_vertex := d.newVertexBuffer }
  let w := call (.glBindBuffer .GL_ARRAY_BUFFER w.BUFFERS_vertex) w
  let w := call (.glBufferData .GL_ARRAY_BUFFER
    (NUM_ATTRIBUTES d.sizeofFloat * NUM_VERTICES * d.sizeofFloat) .GL_STATIC_DRAW) w
  let w := call (.glGenBuffers 1 d.newIndexBuffer) w
  let w := { w with BUFFERS_index := d.newIndexBuffer }
  let w := call (.glBindBuffer .GL_ELEMENT_ARRAY_BUFFER w.BUFFERS_index) w
  let w := call (.glBufferData .GL_ELEMENT_ARRAY_BUFFER
    (NUM_VERTICES * d.sizeofGLuint) .GL_STATIC_DRAW) w
  -- bind specific attributes from the vertex array/format and program variables
  let w := call (.glVertexAttribPointer (toGLuint w.ATTRIBS_position) 3 .GL_FLOAT false
    (sizeofBasicVertex d.sizeofFloat) 0) w
  let w := call (.glVertexAttribPointer (toGLuint w.ATTRIBS_color) 3 .GL_FLOAT false
    (sizeofBasicVertex d.sizeofFloat) (sizeofFloat3 d.sizeofFloat)) w
  (w, none)

/-- Function `onTextInput(key)`: the value returned and the state afterwards. -/
def onTextInput (key : Nat) (w : World) : Bool × World :=
  let isRunning := true
  let w := if key = KEY_space then
      { w with IS_POLYGON_RENDERED := !w.IS_POLYGON_RENDERED }
    else w
  let isRunning := if key = KEY_q then false else isRunning
  (isRunning, w)

/-- Function `render()`. -/
def render (w : World) : World :=
  let w := call (.glClear .GL_COLOR_BUFFER_BIT) w
  let w := if w.IS_POLYGON_RENDERED then
      let w := call (.glUseProgram w.PROGRAMS_basic) w
      let w := call (.glEnableVertexAttribArray (toGLuint w.ATTRIBS_position)) w
      let w := call (.glEnableVertexAttribArray (toGLuint w.ATTRIBS_color)) w
      let w := call (.glBindBuffer .GL_ARRAY_BUFFER w.BUFFERS_vertex) w
      let w := call (.glBindBuffer .GL_ELEMENT_ARRAY_BUFFER w.BUFFERS_index) w
      let w := call (.glDrawElements .GL_TRIANGLES 3 .GL_UNSIGNED_INT 0) w
      let w := call (.glDisableVertexAttribArray (toGLuint w.ATTRIBS_position)) w
      let w := call (.glDisableVertexAttribArray (toGLuint w.ATTRIBS_color)) w
      call (.glUseProgram 0) w
    else w
  call .SDL_GL_SwapWindow w

/-- Function `stopApp()`. -/
def stopApp (w : World) : World :=
  let w := call .SDL_StopTextInput w
  let w := call .SDL_DestroyWindow w
  call .SDL_Quit w

/-- Function `stopGraphics()`. -/
def stopGraphics (w : World) : World :=
  call (.glDeleteProgram w.PROGRAMS_basic) w

/-- The expression `event.text.text[0]` converted to `unsigned char`; the text
is NUL-terminated, so an empty text reads as `0`. -/
def firstChar (text : List Nat) : Nat := text.headD 0 % 256

/-- The `while (SDL_PollEvent(&event) != 0)` loop of `mainLoop`.  The first
argument is the queue `w.pending` the loop polls from: each iteration removes
its head, and the loop ends when it is empty.  The `Bool` is the local
`isRunning`. -/
def pollEvents : List Event → World → Bool → Bool × World
  | [], w, isRunning => (isRunning, w)
  | event :: rest, w, isRunning =>
    let w := { w with pending := rest }
    match event with
    | .SDL_QUIT => pollEvents rest w false
    | .SDL_TEXTINPUT text =>
      let r := onTextInput (firstChar text) w
      pollEvents rest r.2 r.1
    | .otherType _ => pollEvents rest w isRunning

/-- Function `mainLoop()`: the value returned and the state afterwards. -/
def mainLoop (w : World) : Bool × World :=
  let isRunning := true
  let r := pollEvents w.pending w isRunning
  let w := render r.2
  (r.1, w)

/-- How a run of `main` ends. -/
inductive Outcome where
  /-- Function `main` returned `code`. -/
  | returned (code : Int) (w : World)
  /-- An exception left `main` uncaught. -/
  | uncaught (e : Exn) (w : World)
  /-- The loop was still running when the supplied frames were used up. -/
  | running (w : World)
  deriving DecidableEq

/-- The `while (isRunning) isRunning = mainLoop();` loop of `main`.  The list
holds, for each iteration, the events that arrived in the SDL queue before it.
The result is the local `isRunning` and the state when the loop has stopped
(`false`) or when the list is used up and the loop has not stopped (`true`). -/
def whileRunning : List (List Event) → World → Bool × World
  | [], w => (true, w)
  | frame :: frames, w =>
    let r := mainLoop { w with pending := w.pending ++ frame }
    if r.1 then whileRunning frames r.2 else (false, r.2)

/-- Function `main`, run on the initial globals.  There is no `try`/`catch` in
the source: an exception thrown by `startApp` or `startGraphics` leaves `main`
at once. -/
def main (d : Driver) (frames : List (List Event)) : Outcome :=
  match startApp d World.initial with
  | (w, some e) => .uncaught e w
  | (w, none) =>
    match startGraphics d w with
    | (w, some e) => .uncaught e w
    | (w, none) =>
      match whileRunning frames w with
      | (true, w) => .running w
      | (false, w) =>
        let w := stopGraphics w
        let w := stopApp w
        .returned 0 w

/-! ## Test harness and trace predicates -/

/-- Call `onTextInput(key)` `n` times in a row: the values returned, in order,
and the state afterwards. -/
def repeatTextInput (key : Nat) : Nat → World → List Bool × World
  | 0, w => ([], w)
  | n + 1, w =>
    let r := onTextInput key w
    let rs := repeatTextInput key n r.2
    (r.1 :: rs.1, rs.2)

/-- The draw calls of the library. -/
def isDrawCall : GLCall → Bool
  | .glDrawElements _ _ _ _ => true
  | _ => false

/-- The attribute-pointer calls of the library. -/
def isAttribPointerCall : GLCall → Bool
  | .glVertexAttribPointer _ _ _ _ _ _ => true
  | _ => false

/-- The calls that release a GPU object. -/
def isReleaseCall : GLCall → Bool
  | .glDeleteProgram _ => true
  | .glDeleteBuffers _ _ => true
  | .glDeleteShader _ => true
  | _ => false

/-- The calls that create a buffer name. -/
def isGenBuffersCall : GLCall → Bool
  | .glGenBuffers _ _ => true
  | _ => false

/-! ## The frame renderer -/

/-- The calls `render` issues between the clear and the swap. -/
def drawingCalls (w : World) : List GLCall :=
  [ .glUseProgram w.PROGRAMS_basic,
    .glEnableVertexAttribArray (toGLuint w.ATTRIBS_position),
    .glEnableVertexAttribArray (toGLuint w.ATTRIBS_color),
    .glBindBuffer .GL_ARRAY_BUFFER w.BUFFERS_vertex,
    .glBindBuffer .GL_ELEMENT_ARRAY_BUFFER w.BUFFERS_index,
    .glDrawElements .GL_TRIANGLES 3 .GL_UNSIGNED_INT 0,
    .glDisableVertexAttribArray (toGLuint w.ATTRIBS_position),
    .glDisableVertexAttribArray (toGLuint w.ATTRIBS_color),
    .glUseProgram 0 ]

/-- The calls of one `render`, by the value of the flag. -/
def renderCalls (w : World) : List GLCall :=
  .glClear .GL_COLOR_BUFFER_BIT ::
    ((if w.IS_POLYGON_RENDERED then drawingCalls w else []) ++ [.SDL_GL_SwapWindow])

/-! ## Bootstrap -/

/-- The answers with which `startGraphics` passes every check: both compile
statuses and the link status are `GL_TRUE`, both locations are non-negative. -/
abbrev graphicsOk (d : Driver) : Prop :=
  d.vsCompileStatus = GL_TRUE ∧ d.fsCompileStatus = GL_TRUE ∧ d.programSuccess = GL_TRUE ∧
    0 ≤ d.positionLocation ∧ 0 ≤ d.colorLocation

/-- The calls of a `startGraphics` that passes every check. -/
def startGraphicsCalls (d : Driver) : List GLCall :=
  [ .glCreateProgram d.newProgram,
    .glCreateShader .GL_VERTEX_SHADER d.newVertexShader,
    .glShaderSource d.newVertexShader 1,
    .glCompileShader d.newVertexShader,
    .glGetShaderiv d.newVertexShader .GL_COMPILE_STATUS,
    .glAttachShader d.newProgram d.newVertexShader,
    .glCreateShader .GL_FRAGMENT_SHADER d.newFragmentShader,
    .glShaderSource d.newFragmentShader 1,
    .glCompileShader d.newFragmentShader,
    .glGetShaderiv d.newFragmentShader .GL_COMPILE_STATUS,
    .glAttachShader d.newProgram d.newFragmentShader,
    .glLinkProgram d.newProgram,
    .glGetProgramiv d.newProgram .GL_LINK_STATUS,
    .glGetAttribLocation d.newProgram .position,
    .glGetAttribLocation d.newProgram .color,
    .glClearColor,
    .glGenBuffers 1 d.newVertexBuffer,
    .glBindBuffer .GL_ARRAY_BUFFER d.newVertexBuffer,
    .glBufferData .GL_ARRAY_BUFFER
      (NUM_ATTRIBUTES d.sizeofFloat * NUM_VERTICES * d.sizeofFloat) .GL_STATIC_DRAW,
    .glGenBuffers 1 d.newIndexBuffer,
    .glBindBuffer .GL_ELEMENT_ARRAY_BUFFER d.newIndexBuffer,
    .glBufferData .GL_ELEMENT_ARRAY_BUFFER (NUM_VERTICES * d.sizeofGLuint) .GL_STATIC_DRAW,
    .glVertexAttribPointer (toGLuint d.positionLocation) 3 .GL_FLOAT false
      (sizeofBasicVertex d.sizeofFloat) 0,
    .glVertexAttribPointer (toGLuint d.colorLocation) 3 .GL_FLOAT false
      (sizeofBasicVertex d.sizeofFloat) (sizeofFloat3 d.sizeofFloat) ]

/-- The calls of `printShaderLog`, by the answer of `glIsShader`. -/
def printShaderLogCalls (isShader : Bool) (shader : Nat) : List GLCall :=
  .glIsShader shader ::
    (if isShader then [.glGetShaderiv shader .GL_INFO_LOG_LENGTH, .glGetShaderInfoLog shader]
      else [])

/-- The calls of `printProgramLog`, by the answer of `glIsProgram`. -/
def printProgramLogCalls (isProgram : Bool) (program : Nat) : List GLCall :=
  .glIsProgram program ::
    (if isProgram then
        [.glGetProgramiv program .GL_INFO_LOG_LENGTH, .glGetProgramInfoLog program]
      else [])

/-- The calls of a `startGraphics` that fails a check: those up to the failed
check, then those of the log printer if one is called. -/
def startGraphicsFailCalls (d : Driver) : List GLCall :=
  if d.vsCompileStatus ≠ GL_TRUE then
    (startGraphicsCalls d).take 5 ++ printShaderLogCalls d.vertexIsShader d.newVertexShader
  else if d.fsCompileStatus ≠ GL_TRUE then
    (startGraphicsCalls d).take 10 ++ printShaderLogCalls d.fragmentIsShader d.newFragmentShader
  else if d.programSuccess ≠ GL_TRUE then
    (startGraphicsCalls d).take 13 ++ printProgramLogCalls d.programIsProgram d.newProgram
  else
    (startGraphicsCalls d).take 15

/-- The exception of a `startGraphics` that fails a check. -/
def startGraphicsFailExn (d : Driver) : Exn :=
  if d.vsCompileStatus ≠ GL_TRUE then
    (if d.vertexIsShader then .vertexShaderFailedToCompile else .invalidShaderID)
  else if d.fsCompileStatus ≠ GL_TRUE then
    (if d.fragmentIsShader then .fragmentShaderFailedToCompile else .invalidShaderID)
  else if d.programSuccess ≠ GL_TRUE then
    (if d.programIsProgram then .programFailedToLink else .invalidProgramID)
  else
    .programFailedToExposeAttributes

/-! ## Concrete runs -/

/-- A driver on which every step of the bootstrap succeeds: 4-byte floats and
indices, program 1, shaders 2 and 3, `position` at 0, `color` at 1, buffers 1
and 2. -/
def exampleDriver : Driver :=
  { sizeofFloat := 4
    sizeofGLuint := 4
    sdlInitOk := true
    windowOk := true
    contextOk := true
    glewOk := true
    newProgram := 1
    newVertexShader := 2
    newFragmentShader := 3
    vsCompileStatus := 1
    fsCompileStatus := 1
    programSuccess := 1
    positionLocation := 0
    colorLocation := 1
    vertexIsShader := true
    fragmentIsShader := true
    programIsProgram := true
    newVertexBuffer := 1
    newIndexBuffer := 2 }

/-- The same driver, except that `color` is not found (location -1). -/
def exampleDriverColorMissing : Driver :=
  { exampleDriver with colorLocation := -1 }

/-- The same driver, except that the fragment shader does not compile. -/
def exampleDriverFragmentFails : Driver :=
  { exampleDriver with fsCompileStatus := 0 }

/-- The state after a successful bootstrap on `exampleDriver`, with the flag
set. -/
def exampleWorld : World := (startGraphics exampleDriver World.initial).1

/-! ## The event loop of one frame -/

/-- The events `mainLoop` reacts to: quit and text input. -/
def isControlEvent : Event → Bool
  | .SDL_QUIT => true
  | .SDL_TEXTINPUT _ => true
  | .otherType _ => false

/-- The text input events whose first character is a space. -/
def isSpaceInput : Event → Bool
  | .SDL_TEXTINPUT text => decide (firstChar text = KEY_space)
  | _ => false

/-- What a single event says about going on: false for quit and for a text
input whose first character is `q`, true otherwise. -/
def continuesAfter : Event → Bool
  | .SDL_QUIT => false
  | .SDL_TEXTINPUT text => decide (firstChar text ≠ KEY_q)
  | .otherType _ => true

/-- The value `mainLoop` returns on a queue, read off the queue alone: what the
last quit or text input event in it says, and true if it holds none. -/
def frameContinues (queue : List Event) : Bool :=
  match (queue.filter isControlEvent).getLast? with
  | none => true
  | some event => continuesAfter event

/-- The flag after a queue: negated once per space input. -/
def flagAfter (queue : List Event) (flag : Bool) : Bool :=
  Nat.iterate (fun b => !b) (queue.countP isSpaceInput) flag

/-- The decision the polling loop reaches from a current value of
`isRunning`. -/
def decisionFrom (queue : List Event) (isRunning : Bool) : Bool :=
  match (queue.filter isControlEvent).getLast? with
  | none => isRunning
  | some event => continuesAfter event

/-- A queue with a quit event followed by the text input `a`. -/
def quitThenKey : List Event := [.SDL_QUIT, .SDL_TEXTINPUT [97]]

/-! ## Acquisition and release over a whole run -/

/-- The state in which a run of `main` ended. -/
def Outcome.world : Outcome → World
  | .returned _ w => w
  | .uncaught _ w => w
  | .running w => w

/-- Whether a call releases program `p`. -/
def releasesProgram (p : Nat) : GLCall → Bool
  | .glDeleteProgram q => decide (q = p)
  | _ => false

/-- Whether a call releases buffer `b`. -/
def releasesBuffer (b : Nat) : GLCall → Bool
  | .glDeleteBuffers _ q => decide (q = b)
  | _ => false

/-- Whether every program created by `glCreateProgram` and every buffer
created by `glGenBuffers` in a trace is passed, later in the trace, to
`glDeleteProgram`, respectively `glDeleteBuffers`. -/
def handlesReleased : List GLCall → Bool
  | [] => true
  | .glCreateProgram p :: rest => rest.any (releasesProgram p) && handlesReleased rest
  | .glGenBuffers _ b :: rest => rest.any (releasesBuffer b) && handlesReleased rest
  | _ :: rest => handlesReleased rest

/-- The calls of a `startApp` that passes every check. -/
def startAppCalls : List GLCall :=
  [ .SDL_Init, .SDL_CreateWindow SCREEN_WIDTH SCREEN_HEIGHT, .SDL_GL_CreateContext,
    .glewInit, .SDL_StartTextInput ]

/-- The answers with which `startApp` passes every check. -/
abbrev appOk (d : Driver) : Prop :=
  d.sdlInitOk = true ∧ d.windowOk = true ∧ d.contextOk = true ∧ d.glewOk = true

/-- Whether a run of `main` returned, and with which code. -/
def Outcome.exitCode : Outcome → Option Int
  | .returned code _ => some code
  | _ => none

/-- The exception that ended a run of `main`, if one did. -/
def Outcome.exception : Outcome → Option Exn
  | .uncaught e _ => some e
  | _ => none

/-! # Theorems -/

/-! ## Input dispatch -/

/-- Claim C1: for every state (so for every value of the draw-enabled flag),
`onTextInput('q')` returns false and leaves the state, the flag included,
unchanged. -/
theorem onTextInput_q_terminates (w : World) :
    (onTextInput KEY_q w).1 = false ∧ (onTextInput KEY_q w).2 = w ∧
      (onTextInput KEY_q w).2.IS_POLYGON_RENDERED = w.IS_POLYGON_RENDERED := by
  simp [onTextInput, KEY_q, KEY_space]

theorem repeatTextInput_other (k : Nat) (hs : k ≠ KEY_space) (hq : k ≠ KEY_q) (n : Nat)
    (w : World) : repeatTextInput k n w = (List.replicate n true, w) := by
  induction n with
  | zero => rfl
  | succ n ih =>
    have h1 : onTextInput k w = (true, w) := by simp [onTextInput, hs, hq]
    simp [repeatTextInput, h1, ih, List.replicate_succ]

/-- Claim C2: for every key code `k` other than space and `q`, every state and
every `n`, `n` calls of `onTextInput(k)` in a row all return true and leave the
state (so the draw-enabled flag) as it was. -/
theorem onTextInput_other_key_repeated (k : Nat) (hs : k ≠ KEY_space) (hq : k ≠ KEY_q)
    (n : Nat) (w : World) :
    (repeatTextInput k n w).2.IS_POLYGON_RENDERED = w.IS_POLYGON_RENDERED ∧
      (repeatTextInput k n w).2 = w ∧
      (repeatTextInput k n w).1.length = n ∧
      ∀ r ∈ (repeatTextInput k n w).1, r = true := by
  rw [repeatTextInput_other k hs hq n w]
  simp

/-- Witness of C2: the key `a` (code 97), pressed five times with the flag
set. -/
theorem onTextInput_other_key_repeated_witness :
    (97 ≠ KEY_space ∧ 97 ≠ KEY_q) ∧
      (repeatTextInput 97 5 World.initial).2.IS_POLYGON_RENDERED = true ∧
      (repeatTextInput 97 5 World.initial).1 = [true, true, true, true, true] := by
  have h := onTextInput_other_key_repeated 97 (by decide) (by decide) 5 World.initial
  refine ⟨⟨by decide, by decide⟩, h.1, ?_⟩
  rfl

/-- Claim C3: for every state with flag `b`, one call `onTextInput(' ')`
returns true and sets the flag to `!b` (nothing else changes), and two
consecutive calls leave the flag equal to `b`. -/
theorem onTextInput_space_toggles (w : World) :
    (onTextInput KEY_space w).1 = true ∧
      (onTextInput KEY_space w).2 = { w with IS_POLYGON_RENDERED := !w.IS_POLYGON_RENDERED } ∧
      (onTextInput KEY_space (onTextInput KEY_space w).2).1 = true ∧
      (onTextInput KEY_space (onTextInput KEY_space w).2).2.IS_POLYGON_RENDERED
        = w.IS_POLYGON_RENDERED ∧
      (onTextInput KEY_space (onTextInput KEY_space w).2).2 = w := by
  simp [onTextInput, KEY_q, KEY_space]

/-! ## The frame renderer -/

theorem render_eq (w : World) : render w = calls (renderCalls w) w := by
  cases h : w.IS_POLYGON_RENDERED <;>
    simp [render, call, calls, renderCalls, drawingCalls, h]

/-- Claim C5: for every state, the calls of `render` are one clear of the
color buffer, then a middle part, then one swap of the window; the middle part
holds no clear and no swap; its draw calls are none when the flag is false and
exactly the one call `glDrawElements(GL_TRIANGLES, 3, GL_UNSIGNED_INT, NULL)`
when the flag is true. -/
theorem render_trace_shape (w : World) :
    ∃ mid : List GLCall,
      (render w).trace
          = w.trace ++ (.glClear .GL_COLOR_BUFFER_BIT :: (mid ++ [.SDL_GL_SwapWindow])) ∧
        GLCall.glClear .GL_COLOR_BUFFER_BIT ∉ mid ∧
        GLCall.SDL_GL_SwapWindow ∉ mid ∧
        mid.filter isDrawCall
          = (if w.IS_POLYGON_RENDERED then
              [.glDrawElements .GL_TRIANGLES 3 .GL_UNSIGNED_INT 0] else []) := by
  refine ⟨if w.IS_POLYGON_RENDERED then drawingCalls w else [], ?_, ?_, ?_, ?_⟩
  · rw [render_eq]; rfl
  · cases h : w.IS_POLYGON_RENDERED <;> simp [drawingCalls]
  · cases h : w.IS_POLYGON_RENDERED <;> simp [drawingCalls]
  · cases h : w.IS_POLYGON_RENDERED <;> simp [drawingCalls, isDrawCall]

/-! ## Bootstrap -/

theorem startGraphics_ok (d : Driver) (w : World) (h : graphicsOk d) :
    startGraphics d w =
      ({ w with
          PROGRAMS_basic := d.newProgram
          ATTRIBS_position := d.positionLocation
          ATTRIBS_color := d.colorLocation
          BUFFERS_vertex := d.newVertexBuffer
          BUFFERS_index := d.newIndexBuffer
          trace := w.trace ++ startGraphicsCalls d }, none) := by
  obtain ⟨h1, h2, h3, h4, h5⟩ := h
  have h4n : ¬ d.positionLocation < 0 := not_lt.mpr h4
  have h5n : ¬ d.colorLocation < 0 := not_lt.mpr h5
  simp [startGraphics, call, startGraphicsCalls, h1, h2, h3, h4n, h5n]

/-- A `startGraphics` that fails a check throws `startGraphicsFailExn d` after
issuing the calls `startGraphicsFailCalls d`. -/
theorem startGraphics_fail (d : Driver) (w : World) (h : ¬ graphicsOk d) :
    (startGraphics d w).2 = some (startGraphicsFailExn d) ∧
      (startGraphics d w).1.trace = w.trace ++ startGraphicsFailCalls d := by
  by_cases h1 : d.vsCompileStatus = GL_TRUE
  · by_cases h2 : d.fsCompileStatus = GL_TRUE
    · by_cases h3 : d.programSuccess = GL_TRUE
      · have h45 : d.positionLocation < 0 ∨ d.colorLocation < 0 := by
          by_contra hc
          push_neg at hc
          exact h ⟨h1, h2, h3, hc.1, hc.2⟩
        simp [startGraphics, call, startGraphicsFailExn, startGraphicsFailCalls,
          startGraphicsCalls, h1, h2, h3, h45]
      · cases hp : d.programIsProgram <;>
          simp [startGraphics, printProgramLog, call, startGraphicsFailExn,
            startGraphicsFailCalls, startGraphicsCalls, printProgramLogCalls, h1, h2, h3, hp]
    · cases hp : d.fragmentIsShader <;>
        simp [startGraphics, printShaderLog, call, startGraphicsFailExn,
          startGraphicsFailCalls, startGraphicsCalls, printShaderLogCalls, h1, h2, hp]
  · cases hp : d.vertexIsShader <;>
      simp [startGraphics, printShaderLog, call, startGraphicsFailExn,
        startGraphicsFailCalls, startGraphicsCalls, printShaderLogCalls, h1, hp]

/-- The calls of a failed `startGraphics` create no buffer, configure no
attribute pointer and release nothing. -/
theorem startGraphicsFailCalls_none (d : Driver) :
    (startGraphicsFailCalls d).any isGenBuffersCall = false ∧
      (startGraphicsFailCalls d).any isAttribPointerCall = false ∧
      (startGraphicsFailCalls d).any isReleaseCall = false := by
  unfold startGraphicsFailCalls
  split_ifs <;>
    cases d.vertexIsShader <;> cases d.fragmentIsShader <;> cases d.programIsProgram <;>
    simp [startGraphicsCalls, printShaderLogCalls, printProgramLogCalls, isGenBuffersCall,
      isAttribPointerCall, isReleaseCall]

/-! ## Claims on the renderer's binding sequence and the vertex layout -/

/-- Claim C6, refuted as stated: in a state with the flag set, reached by a
successful bootstrap, the calls of `render` hold no attribute-pointer call. -/
theorem render_configures_no_layout :
    exampleWorld.IS_POLYGON_RENDERED = true ∧
      (renderCalls exampleWorld).any isAttribPointerCall = false ∧
      (render exampleWorld).trace = exampleWorld.trace ++ renderCalls exampleWorld ∧
      (render exampleWorld).trace.filter isAttribPointerCall
        = exampleWorld.trace.filter isAttribPointerCall := by
  refine ⟨rfl, by decide, ?_, ?_⟩
  · rw [render_eq]; rfl
  · rw [render_eq]; decide

/-- Claim C6, amended: with the flag set, `render` issues between the clear and
the swap, in this order: select the program, enable the position and the color
array, bind the vertex buffer, bind the index buffer, the indexed draw, disable
both arrays, select program 0.  The two attribute-pointer calls are not part of
`render`: a `startGraphics` that passes every check issues them as its last
two calls, after binding the vertex buffer to `GL_ARRAY_BUFFER` and with no
other binding of that target in between. -/
theorem render_drawing_sequence (w : World) (hflag : w.IS_POLYGON_RENDERED = true)
    (d : Driver) (w0 : World) (hok : graphicsOk d) :
    (render w).trace = w.trace ++
        [ .glClear .GL_COLOR_BUFFER_BIT,
          .glUseProgram w.PROGRAMS_basic,
          .glEnableVertexAttribArray (toGLuint w.ATTRIBS_position),
          .glEnableVertexAttribArray (toGLuint w.ATTRIBS_color),
          .glBindBuffer .GL_ARRAY_BUFFER w.BUFFERS_vertex,
          .glBindBuffer .GL_ELEMENT_ARRAY_BUFFER w.BUFFERS_index,
          .glDrawElements .GL_TRIANGLES 3 .GL_UNSIGNED_INT 0,
          .glDisableVertexAttribArray (toGLuint w.ATTRIBS_position),
          .glDisableVertexAttribArray (toGLuint w.ATTRIBS_color),
          .glUseProgram 0,
          .SDL_GL_SwapWindow ] ∧
      ∃ before : List GLCall,
        before.any isAttribPointerCall = false ∧
        (startGraphics d w0).1.trace = w0.trace ++ before ++
          [ .glBindBuffer .GL_ARRAY_BUFFER d.newVertexBuffer,
            .glBufferData .GL_ARRAY_BUFFER
              (NUM_ATTRIBUTES d.sizeofFloat * NUM_VERTICES * d.sizeofFloat) .GL_STATIC_DRAW,
            .glGenBuffers 1 d.newIndexBuffer,
            .glBindBuffer .GL_ELEMENT_ARRAY_BUFFER d.newIndexBuffer,
            .glBufferData .GL_ELEMENT_ARRAY_BUFFER (NUM_VERTICES * d.sizeofGLuint)
              .GL_STATIC_DRAW,
            .glVertexAttribPointer (toGLuint d.positionLocation) 3 .GL_FLOAT false
              (sizeofBasicVertex d.sizeofFloat) 0,
            .glVertexAttribPointer (toGLuint d.colorLocation) 3 .GL_FLOAT false
              (sizeofBasicVertex d.sizeofFloat) (sizeofFloat3 d.sizeofFloat) ] := by
  constructor
  · rw [render_eq]
    simp [calls, renderCalls, drawingCalls, hflag]
  · refine ⟨(startGraphicsCalls d).take 17, ?_, ?_⟩
    · simp [startGraphicsCalls, isAttribPointerCall]
    · rw [startGraphics_ok d w0 hok]
      simp [startGraphicsCalls]

/-- Witness of the amended C6: the bootstrap on `exampleDriver`, then one
`render` with the flag set. -/
theorem render_drawing_sequence_witness :
    exampleWorld.IS_POLYGON_RENDERED = true ∧ graphicsOk exampleDriver ∧
      (render exampleWorld).trace = exampleWorld.trace ++
        [ .glClear .GL_COLOR_BUFFER_BIT, .glUseProgram 1,
          .glEnableVertexAttribArray 0, .glEnableVertexAttribArray 1,
          .glBindBuffer .GL_ARRAY_BUFFER 1, .glBindBuffer .GL_ELEMENT_ARRAY_BUFFER 2,
          .glDrawElements .GL_TRIANGLES 3 .GL_UNSIGNED_INT 0,
          .glDisableVertexAttribArray 0, .glDisableVertexAttribArray 1,
          .glUseProgram 0, .SDL_GL_SwapWindow ] :=
  ⟨rfl, by decide,
    (render_drawing_sequence exampleWorld rfl exampleDriver World.initial (by decide)).1⟩

/-- Claim C7: with `sizeof(float) = 4`, the attribute-pointer calls of a
`startGraphics` that passes every check are, in order, position with 3
components, `GL_FLOAT`, not normalised, stride 24, offset 0, and color with 3
components, `GL_FLOAT`, not normalised, stride 24, offset 12; `NUM_ATTRIBUTES`
is 6, and the vertex upload has size
`NUM_ATTRIBUTES * NUM_VERTICES * sizeof(GLfloat) = 72 = 3 * stride`. -/
theorem startGraphics_vertex_layout (d : Driver) (w : World) (hsize : d.sizeofFloat = 4)
    (hok : graphicsOk d) :
    (startGraphics d w).1.trace.filter isAttribPointerCall
        = w.trace.filter isAttribPointerCall ++
          [ .glVertexAttribPointer (toGLuint d.positionLocation) 3 .GL_FLOAT false 24 0,
            .glVertexAttribPointer (toGLuint d.colorLocation) 3 .GL_FLOAT false 24 12 ] ∧
      sizeofBasicVertex d.sizeofFloat = 24 ∧
      NUM_ATTRIBUTES d.sizeofFloat = 6 ∧
      NUM_ATTRIBUTES d.sizeofFloat * NUM_VERTICES * d.sizeofFloat = 72 ∧
      72 = 3 * sizeofBasicVertex d.sizeofFloat ∧
      GLCall.glBufferData .GL_ARRAY_BUFFER 72 .GL_STATIC_DRAW ∈ (startGraphics d w).1.trace := by
  rw [startGraphics_ok d w hok]
  simp [startGraphicsCalls, isAttribPointerCall, hsize, sizeofBasicVertex, sizeofFloat3,
    NUM_ATTRIBUTES, NUM_VERTICES]

/-- Witness of C7: the bootstrap on `exampleDriver`. -/
theorem startGraphics_vertex_layout_witness :
    exampleDriver.sizeofFloat = 4 ∧ graphicsOk exampleDriver ∧
      (startGraphics exampleDriver World.initial).1.trace.filter isAttribPointerCall
        = [ .glVertexAttribPointer 0 3 .GL_FLOAT false 24 0,
            .glVertexAttribPointer 1 3 .GL_FLOAT false 24 12 ] :=
  ⟨rfl, by decide,
    (startGraphics_vertex_layout exampleDriver World.initial rfl (by decide)).1⟩

/-! ## Claims on bootstrap failure -/

/-- Claim C8: `startGraphics` returns without throwing if and only if both
compile statuses and the link status are `GL_TRUE` and both attribute
locations are non-negative.  A location of -1 for either attribute makes it
throw, and the exception is the attribute error whenever compilation and
linking succeeded (the locations are queried only then).  Whenever it throws,
the calls it issued hold no `glGenBuffers` and no `glVertexAttribPointer`. -/
theorem startGraphics_completes_iff (d : Driver) (w : World) :
    ((startGraphics d w).2 = none ↔
        (d.vsCompileStatus = GL_TRUE ∧ d.fsCompileStatus = GL_TRUE ∧
          d.programSuccess = GL_TRUE ∧ 0 ≤ d.positionLocation ∧ 0 ≤ d.colorLocation)) ∧
      ((d.positionLocation = -1 ∨ d.colorLocation = -1) →
        (startGraphics d w).2 ≠ none ∧
        ((d.vsCompileStatus = GL_TRUE ∧ d.fsCompileStatus = GL_TRUE ∧
            d.programSuccess = GL_TRUE) →
          (startGraphics d w).2 = some .programFailedToExposeAttributes)) ∧
      ((startGraphics d w).2 ≠ none →
        ∃ new : List GLCall, (startGraphics d w).1.trace = w.trace ++ new ∧
          new.any isGenBuffersCall = false ∧ new.any isAttribPointerCall = false) := by
  have hiff : (startGraphics d w).2 = none ↔ graphicsOk d := by
    constructor
    · intro hnone
      by_contra hnot
      rw [(startGraphics_fail d w hnot).1] at hnone
      exact Option.some_ne_none _ hnone
    · intro hok
      rw [startGraphics_ok d w hok]
  refine ⟨hiff, ?_, ?_⟩
  · intro hloc
    have hnot : ¬ graphicsOk d := by
      rintro ⟨_, _, _, h4, h5⟩
      rcases hloc with h | h <;> omega
    refine ⟨fun hnone => hnot (hiff.mp hnone), ?_⟩
    rintro ⟨h1, h2, h3⟩
    rw [(startGraphics_fail d w hnot).1]
    simp [startGraphicsFailExn, h1, h2, h3]
  · intro hthrown
    have hnot : ¬ graphicsOk d := fun hok => hthrown (hiff.mpr hok)
    exact ⟨startGraphicsFailCalls d, (startGraphics_fail d w hnot).2,
      (startGraphicsFailCalls_none d).1, (startGraphicsFailCalls_none d).2.1⟩

/-- Witness of C8: on `exampleDriverColorMissing` (`color` at -1, all else
fine) `startGraphics` throws the attribute error, having created no buffer
and configured no attribute pointer. -/
theorem startGraphics_completes_iff_witness :
    exampleDriverColorMissing.colorLocation = -1 ∧
      (exampleDriverColorMissing.vsCompileStatus = GL_TRUE ∧
        exampleDriverColorMissing.fsCompileStatus = GL_TRUE ∧
        exampleDriverColorMissing.programSuccess = GL_TRUE) ∧
      (startGraphics exampleDriverColorMissing World.initial).2
        = some .programFailedToExposeAttributes ∧
      (startGraphics exampleDriverColorMissing World.initial).1.trace.any isGenBuffersCall
        = false ∧
      (startGraphics exampleDriver World.initial).2 = none :=
  ⟨rfl, by decide,
    ((startGraphics_completes_iff exampleDriverColorMissing World.initial).2.1
      (Or.inr rfl)).2 (by decide),
    by decide,
    (startGraphics_completes_iff exampleDriver World.initial).1.mpr (by decide)⟩

/-! ## The event loop of one frame -/

theorem iterate_not (n : Nat) (b : Bool) :
    Nat.iterate (fun b => !b) n b = if n % 2 = 0 then b else !b := by
  induction n generalizing b with
  | zero => rfl
  | succ n ih =>
    rw [Function.iterate_succ_apply, ih]
    rcases Nat.mod_two_eq_zero_or_one n with h | h
    · have h2 : (n + 1) % 2 = 1 := by omega
      simp [h, h2]
    · have h2 : (n + 1) % 2 = 0 := by omega
      simp [h, h2]

theorem decisionFrom_cons_control (e : Event) (es : List Event) (r : Bool)
    (h : isControlEvent e = true) :
    decisionFrom (e :: es) r = decisionFrom es (continuesAfter e) := by
  unfold decisionFrom
  rw [List.filter_cons_of_pos h]
  cases hl : (es.filter isControlEvent) with
  | nil => simp
  | cons a l =>
    rw [List.getLast?_cons_cons]
    cases hg : (a :: l).getLast? with
    | none => simp at hg
    | some b => rfl

theorem decisionFrom_cons_other (e : Event) (es : List Event) (r : Bool)
    (h : isControlEvent e = false) :
    decisionFrom (e :: es) r = decisionFrom es r := by
  unfold decisionFrom
  rw [List.filter_cons_of_neg (by simp [h])]

theorem onTextInput_eq (k : Nat) (w : World) :
    onTextInput k w =
      (decide (k ≠ KEY_q),
        { w with IS_POLYGON_RENDERED :=
            if k = KEY_space then !w.IS_POLYGON_RENDERED else w.IS_POLYGON_RENDERED }) := by
  have hne : KEY_q ≠ KEY_space := by decide
  by_cases hs : k = KEY_space <;> by_cases hk : k = KEY_q <;>
    simp_all [onTextInput]

theorem pollEvents_eq (q : List Event) (w : World) (r : Bool) (hq : w.pending = q) :
    pollEvents q w r =
      (decisionFrom q r,
        { w with pending := [], IS_POLYGON_RENDERED := flagAfter q w.IS_POLYGON_RENDERED }) := by
  induction q generalizing w r with
  | nil =>
    cases w
    simp_all [pollEvents, decisionFrom, flagAfter]
  | cons e es ih =>
    cases e with
    | SDL_QUIT =>
      rw [pollEvents, ih _ _ rfl, decisionFrom_cons_control .SDL_QUIT es r rfl]
      simp [flagAfter, isSpaceInput, continuesAfter]
    | SDL_TEXTINPUT text =>
      rw [pollEvents, onTextInput_eq, ih _ _ rfl,
        decisionFrom_cons_control (.SDL_TEXTINPUT text) es r rfl]
      by_cases hs : firstChar text = KEY_space
      · simp [flagAfter, isSpaceInput, continuesAfter, hs, Function.iterate_succ_apply]
      · simp [flagAfter, isSpaceInput, continuesAfter, hs]
    | otherType t =>
      rw [pollEvents, ih _ _ rfl, decisionFrom_cons_other (.otherType t) es r rfl]
      simp [flagAfter, isSpaceInput]

theorem mainLoop_eq (w : World) :
    mainLoop w =
      (frameContinues w.pending,
        render { w with
          pending := []
          IS_POLYGON_RENDERED := flagAfter w.pending w.IS_POLYGON_RENDERED }) := by
  unfold mainLoop
  simp only [pollEvents_eq w.pending w true rfl]
  rfl

/-- Claim C10: for every state with a finite pending queue, one call of
`mainLoop` (a) returns what the last quit or text input event of the queue
says (false for quit and for a text whose first character is `q`, true
otherwise), and true when the queue holds no such event; (b) leaves the flag
equal to its initial value negated once per text input whose first character
is a space, so unchanged exactly when their number is even; (c) empties the
queue and then runs `render` once, on the state with that final flag. -/
theorem mainLoop_frame_behaviour (w : World) :
    (mainLoop w).1
        = (match (w.pending.filter isControlEvent).getLast? with
          | none => true
          | some .SDL_QUIT => false
          | some (.SDL_TEXTINPUT text) => decide (firstChar text ≠ KEY_q)
          | some (.otherType _) => true) ∧
      (mainLoop w).2.IS_POLYGON_RENDERED
        = Nat.iterate (fun b => !b) (w.pending.countP isSpaceInput) w.IS_POLYGON_RENDERED ∧
      ((mainLoop w).2.IS_POLYGON_RENDERED = w.IS_POLYGON_RENDERED ↔
        Even (w.pending.countP isSpaceInput)) ∧
      (mainLoop w).2.pending = [] ∧
      (mainLoop w).2
        = render { w with
            pending := []
            IS_POLYGON_RENDERED :=
              Nat.iterate (fun b => !b) (w.pending.countP isSpaceInput)
                w.IS_POLYGON_RENDERED } := by
  have hflag : (mainLoop w).2.IS_POLYGON_RENDERED
      = Nat.iterate (fun b => !b) (w.pending.countP isSpaceInput) w.IS_POLYGON_RENDERED := by
    rw [mainLoop_eq, render_eq]; rfl
  refine ⟨?_, hflag, ?_, ?_, ?_⟩
  · rw [mainLoop_eq]
    simp only [frameContinues]
    cases (w.pending.filter isControlEvent).getLast? with
    | none => rfl
    | some e => cases e <;> rfl
  · rw [hflag, iterate_not, Nat.even_iff]
    by_cases h : w.pending.countP isSpaceInput % 2 = 0
    · simp [h]
    · simp [h]
  · rw [mainLoop_eq, render_eq]; rfl
  · rw [mainLoop_eq]; rfl

/-- Claim C4 at the queue `quitThenKey`, which holds a quit event: `mainLoop`
empties the queue and runs `render` once, but returns true, and the loop of
`main` run on this one frame has not stopped (its `isRunning` is true): `main`
has not returned. -/
theorem mainLoop_quit_then_key_continues :
    Event.SDL_QUIT ∈ quitThenKey ∧
      (mainLoop { exampleWorld with pending := quitThenKey }).1 = true ∧
      (mainLoop { exampleWorld with pending := quitThenKey }).2 = render exampleWorld ∧
      whileRunning [quitThenKey] exampleWorld = (true, render exampleWorld) ∧
      (main exampleDriver [quitThenKey]).exitCode = none := by
  refine ⟨by decide, ?_, ?_, ?_, by decide⟩
  · rw [mainLoop_eq]; rfl
  · rw [mainLoop_eq]; rfl
  · simp only [whileRunning]
    rw [mainLoop_eq]; rfl

/-! ## Acquisition and release over a whole run -/

theorem startApp_ok (d : Driver) (w : World) (h : appOk d) :
    startApp d w = (calls startAppCalls w, none) := by
  obtain ⟨h1, h2, h3, h4⟩ := h
  simp [startApp, call, calls, startAppCalls, h1, h2, h3, h4]

theorem renderCalls_no_release (w : World) : (renderCalls w).any isReleaseCall = false := by
  cases h : w.IS_POLYGON_RENDERED <;> simp [renderCalls, drawingCalls, isReleaseCall, h]

/-- When some supplied frame makes `mainLoop` return false, the loop of `main`
stops; it leaves `PROGRAMS["basic"]` alone and issues no release call. -/
theorem whileRunning_stops (frames : List (List Event)) (w : World) (hp : w.pending = [])
    (hstop : ∃ q ∈ frames, frameContinues q = false) :
    ∃ w1 extra, whileRunning frames w = (false, w1) ∧ w1.PROGRAMS_basic = w.PROGRAMS_basic ∧
      w1.trace = w.trace ++ extra ∧ extra.any isReleaseCall = false := by
  induction frames generalizing w with
  | nil => simp at hstop
  | cons q qs ih =>
    obtain ⟨w2, hw2⟩ : ∃ w2 : World, w2 = { w with
        pending := []
        IS_POLYGON_RENDERED := flagAfter q w.IS_POLYGON_RENDERED } := ⟨_, rfl⟩
    have hml : mainLoop { w with pending := w.pending ++ q }
        = (frameContinues q, render w2) := by
      rw [mainLoop_eq, hw2]
      simp [hp]
    have hprog : (render w2).PROGRAMS_basic = w.PROGRAMS_basic := by
      rw [render_eq, hw2]; rfl
    have htrace : (render w2).trace = w.trace ++ renderCalls w2 := by
      rw [render_eq, hw2]; rfl
    have hpend : (render w2).pending = [] := by
      rw [render_eq, hw2]; rfl
    rw [whileRunning, hml]
    cases hq : frameContinues q with
    | false =>
      exact ⟨render w2, renderCalls w2, by simp, hprog, htrace, renderCalls_no_release w2⟩
    | true =>
      have hstop2 : ∃ q2 ∈ qs, frameContinues q2 = false := by
        obtain ⟨q2, hmem, hq2⟩ := hstop
        rcases List.mem_cons.mp hmem with h | h
        · rw [h, hq] at hq2; cases hq2
        · exact ⟨q2, h, hq2⟩
      obtain ⟨w1, extra, h1, h2, h3, h4⟩ := ih (render w2) hpend hstop2
      refine ⟨w1, renderCalls w2 ++ extra, by simpa using h1, ?_, ?_, ?_⟩
      · rw [h2, hprog]
      · rw [h3, htrace, List.append_assoc]
      · rw [List.any_append, renderCalls_no_release, h4]; rfl

/-- Claim C9, refuted as stated.  On the normal path (bootstrap succeeds, the
one frame holds a quit event, `main` returns 0) the two buffers from
`glGenBuffers` are never passed to `glDeleteBuffers`; on the path where the
fragment shader fails to compile, `main` is left by the exception and the
program from `glCreateProgram` is never passed to `glDeleteProgram`. -/
theorem main_leaves_handles_unreleased :
    (main exampleDriver [[.SDL_QUIT]]).exitCode = some 0 ∧
      (main exampleDriver [[.SDL_QUIT]]).world.trace.any (releasesBuffer 1) = false ∧
      (main exampleDriver [[.SDL_QUIT]]).world.trace.any (releasesBuffer 2) = false ∧
      handlesReleased (main exampleDriver [[.SDL_QUIT]]).world.trace = false ∧
      (main exampleDriverFragmentFails [[.SDL_QUIT]]).exception
        = some .fragmentShaderFailedToCompile ∧
      GLCall.glCreateProgram 1 ∈ (main exampleDriverFragmentFails [[.SDL_QUIT]]).world.trace ∧
      (main exampleDriverFragmentFails [[.SDL_QUIT]]).world.trace.any (releasesProgram 1)
        = false ∧
      handlesReleased (main exampleDriverFragmentFails [[.SDL_QUIT]]).world.trace = false := by
  refine ⟨?_, ?_, ?_, ?_, ?_, ?_, ?_, ?_⟩ <;> decide

/-- Claim C9, amended.  When `startApp` succeeds: (1) if `startGraphics` passes
every check and some frame makes `mainLoop` return false, `main` returns 0 and
its trace ends with `glDeleteProgram` of the handle from `glCreateProgram`
followed by the three calls of `stopApp`; nothing before that is a release
call, so the two buffers created by `glGenBuffers` are not released by the
program; (2) if `startGraphics` fails a check, `main` is left by the exception
with the trace of `startApp` and of the failed `startGraphics`, which creates
the program and holds no release call. -/
theorem main_release_calls (d : Driver) (frames : List (List Event)) (happ : appOk d) :
    (graphicsOk d → (∃ q ∈ frames, frameContinues q = false) →
        ∃ (w : World) (before : List GLCall),
          main d frames = .returned 0 w ∧
          w.trace = before ++
            [ .glDeleteProgram d.newProgram, .SDL_StopTextInput, .SDL_DestroyWindow,
              .SDL_Quit ] ∧
          before.any isReleaseCall = false ∧
          GLCall.glCreateProgram d.newProgram ∈ before ∧
          GLCall.glGenBuffers 1 d.newVertexBuffer ∈ before ∧
          GLCall.glGenBuffers 1 d.newIndexBuffer ∈ before) ∧
      (¬ graphicsOk d →
        ∃ (e : Exn) (w : World),
          main d frames = .uncaught e w ∧
          w.trace = startAppCalls ++ startGraphicsFailCalls d ∧
          GLCall.glCreateProgram d.newProgram ∈ w.trace ∧
          w.trace.any isReleaseCall = false) := by
  constructor
  · intro hok hstop
    obtain ⟨w1, extra, h1, h2, h3, h4⟩ :=
      whileRunning_stops frames (startGraphics d (calls startAppCalls World.initial)).1
        (by rw [startGraphics_ok d _ hok]; rfl) hstop
    rw [startGraphics_ok d _ hok] at h1 h2 h3
    refine ⟨stopApp (stopGraphics w1), startAppCalls ++ startGraphicsCalls d ++ extra,
      ?_, ?_, ?_, ?_, ?_, ?_⟩
    · simp only [main, startApp_ok d _ happ, startGraphics_ok d _ hok, h1]
    · simp only [stopApp, stopGraphics, call, h2, h3]
      simp [calls, World.initial]
    · simp only [List.any_append, h4]
      simp [startAppCalls, startGraphicsCalls, isReleaseCall]
    · simp [startGraphicsCalls]
    · simp [startGraphicsCalls]
    · simp [startGraphicsCalls]
  · intro hnot
    have hf := startGraphics_fail d (calls startAppCalls World.initial) hnot
    have hcreate : GLCall.glCreateProgram d.newProgram ∈ startGraphicsFailCalls d := by
      unfold startGraphicsFailCalls
      split_ifs <;> simp [startGraphicsCalls]
    refine ⟨startGraphicsFailExn d, (startGraphics d (calls startAppCalls World.initial)).1,
      ?_, ?_, ?_, ?_⟩
    · simp only [main, startApp_ok d _ happ]
      generalize startGraphics d (calls startAppCalls World.initial) = r at hf
      obtain ⟨rw1, re⟩ := r
      simp only at hf
      simp [hf.1]
    · rw [hf.2]; rfl
    · rw [hf.2]
      exact List.mem_append_right _ hcreate
    · rw [hf.2, List.any_append, (startGraphicsFailCalls_none d).2.2]
      simp [calls, World.initial, startAppCalls, isReleaseCall]

/-- Witness of the amended C9: the run on `exampleDriver` with the single frame
holding a quit event returns 0, and the run on `exampleDriverFragmentFails` is
left by an exception. -/
theorem main_release_calls_witness :
    appOk exampleDriver ∧ graphicsOk exampleDriver ∧
      (∃ q ∈ [[Event.SDL_QUIT]], frameContinues q = false) ∧
      (∃ (w : World) (before : List GLCall),
          main exampleDriver [[.SDL_QUIT]] = .returned 0 w ∧
          w.trace = before ++
            [ .glDeleteProgram exampleDriver.newProgram, .SDL_StopTextInput,
              .SDL_DestroyWindow, .SDL_Quit ] ∧
          before.any isReleaseCall = false ∧
          GLCall.glCreateProgram exampleDriver.newProgram ∈ before ∧
          GLCall.glGenBuffers 1 exampleDriver.newVertexBuffer ∈ before ∧
          GLCall.glGenBuffers 1 exampleDriver.newIndexBuffer ∈ before) ∧
      appOk exampleDriverFragmentFails ∧ ¬ graphicsOk exampleDriverFragmentFails ∧
      (∃ (e : Exn) (w : World),
          main exampleDriverFragmentFails [] = .uncaught e w ∧
          w.trace = startAppCalls ++ startGraphicsFailCalls exampleDriverFragmentFails ∧
          GLCall.glCreateProgram exampleDriverFragmentFails.newProgram ∈ w.trace ∧
          w.trace.any isReleaseCall = false) :=
  ⟨by decide, by decide, ⟨[.SDL_QUIT], by decide, by decide⟩,
    (main_release_calls exampleDriver [[.SDL_QUIT]] (by decide)).1 (by decide)
      ⟨[.SDL_QUIT], by decide, by decide⟩,
    by decide, by decide,
    (main_release_calls exampleDriverFragmentFails [] (by decide)).2 (by decide)⟩

end Alphonse
